import Mathlib

/-!
Verification of the inframe screen-context recorder against its
natural-language specification.

The development shallowly embeds the Python sources:

* `src/inframe/recorder.py` — the `ContextRecorder` class: a registry of
  session records (`recorders : Dict[str, RecorderConfig]`), a global
  `active_recorders` count, a global `is_recording` flag, and the
  `start`/`stop`/`shutdown`/`_on_context_update` operations.  External
  collaborators (video stream, transcription pipeline, context integrator)
  are modelled by their observable resource state (started / stopped)
  plus explicit failure-injection flags for each collaborator call the
  Python code awaits.
* `src/local-inframe/context_mcp_server.py` (and its network variant) —
  the read-only MCP tools over the day-keyed cache file.
* `src/local-inframe/local_context_recorder.py` — the standalone CLI.

Python exceptions are modelled with `Except Unit`; a `try/except` that
swallows the exception becomes a `match` with a fallback.  The filesystem
is modelled as an association list from path to file content (an entry
with empty-string content is an existing empty file; a missing entry is a
missing file).
-/

namespace Inframe

/-- Resource state of the per-session external collaborators of
`RecorderConfig` (the `VideoStream` and the `TranscriptionPipeline`):
whether each one has been started and not since stopped. -/
structure StageState where
  videoStarted : Bool := false
  pipelineStarted : Bool := false
  deriving Repr, DecidableEq

/-- Embedding of the mutable part of `RecorderConfig`
(`src/inframe/recorder.py` lines 15–22): the `is_recording` flag, plus
the observable state of the session's own collaborators.  The purely
configurational fields (`include_apps`, `recording_mode`, `visual_task`)
do not affect any claim and are omitted. -/
structure RecorderConfig where
  is_recording : Bool := false
  stages : StageState := {}
  deriving Repr, DecidableEq

/-- Embedding of the mutable state of a `ContextRecorder` instance
(`src/inframe/recorder.py`): the registry `self.recorders` (a Python dict,
embedded as an association list in insertion order), the global
`self.is_recording` flag, the `self.active_recorders` count
(a Python int, hence `Int`), the configured `self.cache_file` path, and
the resource state of the single shared context integrator. -/
structure RecorderState where
  recorders : List (String × RecorderConfig) := []
  is_recording : Bool := false
  active_recorders : Int := 0
  cache_file : String := ".cache/inframe"
  integratorStarted : Bool := false
  deriving Repr, DecidableEq

/-- Dict read `self.recorders[id]` / `id in self.recorders`: first entry
with the given key (keys are unique in a Python dict; the model keeps
the generality of an association list). -/
def lookupRec : List (String × RecorderConfig) → String → Option RecorderConfig
  | [], _ => none
  | (k, c) :: rest, id => if k = id then some c else lookupRec rest id

/-- Dict write `self.recorders[id] = c` for a key already present:
replace the first entry with the given key. -/
def updateRec : List (String × RecorderConfig) → String → RecorderConfig →
    List (String × RecorderConfig)
  | [], _, _ => []
  | (k, c0) :: rest, id, c =>
    if k = id then (k, c) :: rest else (k, c0) :: updateRec rest id c

/-- Failure injection for the collaborator calls made by
`ContextRecorder.start`: whether `video_stream.start_stream` returns
`True`, and whether `transcription_pipeline.start_pipeline` resp.
`context_integrator.start_integrator` raise. -/
structure StartBehavior where
  videoStartOk : Bool := true
  pipelineStartRaises : Bool := false
  integratorStartRaises : Bool := false
  deriving Repr, DecidableEq

/-- Failure injection for the collaborator calls made by
`ContextRecorder.stop`: whether `transcription_pipeline.stop_pipeline`
resp. `video_stream.stop_stream` raise. -/
structure StopBehavior where
  pipelineStopRaises : Bool := false
  videoStopRaises : Bool := false
  deriving Repr, DecidableEq

/-- A `StopBehavior` with no injected failure. -/
def StopBehavior.clean (b : StopBehavior) : Prop :=
  b.pipelineStopRaises = false ∧ b.videoStopRaises = false

instance (b : StopBehavior) : Decidable b.clean := by
  unfold StopBehavior.clean; infer_instance

namespace ContextRecorder

/-- Embedding of `ContextRecorder.add_recorder`
(`src/inframe/recorder.py` lines 72–100): create a fresh config with
`is_recording = False` and collaborators not yet started, and insert it
into the registry under a fresh uuid (the uuid is a parameter here;
freshness is a hypothesis where a claim needs it). -/
def add_recorder (st : RecorderState) (id : String) : RecorderState :=
  { st with recorders := st.recorders ++ [(id, {})] }

/-- Embedding of `ContextRecorder.start`
(`src/inframe/recorder.py` lines 103–141).  Returns the new state and the
boolean result.  The `try/except` catches the injected collaborator
exceptions and returns `False`, leaving whatever collaborators were
already started still started — the code has no rollback. -/
def start (st : RecorderState) (id : String) (b : StartBehavior) :
    RecorderState × Bool :=
  match lookupRec st.recorders id with
  | none => (st, false)
  | some config =>
    if b.videoStartOk = false then
      (st, false)
    else
      let config1 := { config with stages := { config.stages with videoStarted := true } }
      let st1 := { st with recorders := updateRec st.recorders id config1 }
      if b.pipelineStartRaises then
        (st1, false)
      else
        let config2 := { config1 with stages := { config1.stages with pipelineStarted := true } }
        let st2 := { st1 with recorders := updateRec st1.recorders id config2 }
        if b.integratorStartRaises then
          (st2, false)
        else
          let st3 := { st2 with integratorStarted := true }
          let config3 := { config2 with is_recording := true }
          ({ st3 with
              recorders := updateRec st3.recorders id config3,
              is_recording := true,
              active_recorders := st3.active_recorders + 1 }, true)

/-- Embedding of `ContextRecorder.stop`
(`src/inframe/recorder.py` lines 143–167).  The very first line
`self.recorders[recorder_id]` raises `KeyError` for an unknown id
(`Except.error ()`); for a known, inactive record the method returns at
once.  The `try/except` swallows injected collaborator failures, so a
failure part-way leaves the record's `is_recording` and the counters
untouched. -/
def stop (st : RecorderState) (id : String) (b : StopBehavior) :
    Except Unit RecorderState :=
  match lookupRec st.recorders id with
  | none => .error ()
  | some config =>
    if config.is_recording = false then
      .ok st
    else
      if b.pipelineStopRaises then
        .ok st
      else
        let config1 := { config with stages := { config.stages with pipelineStarted := false } }
        let st1 := { st with recorders := updateRec st.recorders id config1 }
        if b.videoStopRaises then
          .ok st1
        else
          let config2 :=
            { config1 with
                stages := { config1.stages with videoStarted := false },
                is_recording := false }
          let st2 := { st1 with recorders := updateRec st1.recorders id config2 }
          let n : Int := st2.active_recorders - 1
          .ok { st2 with
                  active_recorders := n,
                  is_recording := if n = 0 then false else st2.is_recording }

/-- Per-session injected stop behaviour for `shutdown`, keyed by
recorder id; ids without an entry fail nowhere. -/
def lookupStop : List (String × StopBehavior) → String → StopBehavior
  | [], _ => {}
  | (k, b) :: rest, id => if k = id then b else lookupStop rest id

/-- One iteration of the `shutdown` loop
(`src/inframe/recorder.py` lines 172–177): if the record is currently
active, call `stop` and swallow any exception it raises. -/
def shutdownStep (bs : List (String × StopBehavior)) (st : RecorderState)
    (id : String) : RecorderState :=
  match lookupRec st.recorders id with
  | none => st
  | some c =>
    if c.is_recording then
      match stop st id (lookupStop bs id) with
      | .ok s => s
      | .error _ => st
    else st

/-- Embedding of `ContextRecorder.shutdown`
(`src/inframe/recorder.py` lines 169–180): iterate over a snapshot of the
registry's keys, stopping each still-active session with its failures
isolated, then unconditionally reset `self.is_recording` and
`self.active_recorders`. -/
def shutdown (st : RecorderState) (bs : List (String × StopBehavior)) :
    RecorderState :=
  let st1 := (st.recorders.map Prod.fst).foldl (shutdownStep bs) st
  { st1 with is_recording := false, active_recorders := 0 }

end ContextRecorder

/-- Session records whose `is_recording` flag is true, counted over the
registry (the spec's "number of Session Records with `active = true`"). -/
def countActive : List (String × RecorderConfig) → Int
  | [] => 0
  | (_, c) :: rest => (if c.is_recording then 1 else 0) + countActive rest

/-! Cache store.  The filesystem fragment the cache write/read paths touch
is an association list from absolute path to file content.  A present
entry with empty content is an existing empty file. -/

/-- A tiny model of the filesystem: path ↦ file content. -/
def CacheStore := List (String × String)

/-- `Path.read_text` / `Path.exists`: `some content` when the file exists,
`none` when it does not. -/
def readFile : CacheStore → String → Option String
  | [], _ => none
  | (p, c) :: rest, q => if p = q then some c else readFile rest q

/-- `Path.write_text`: overwrite the file wholesale, creating it if
absent. -/
def writeFile : CacheStore → String → String → CacheStore
  | [], q, s => [(q, s)]
  | (p, c) :: rest, q, s =>
    if p = q then (p, s) :: rest else (p, c) :: writeFile rest q s

/-- A Python value as seen by `_on_context_update`: the current context is
either already a string (`pstr`), a dict to be JSON-encoded (`pdict`),
or some other object whose `str()` rendering is `r` (`pother`). -/
inductive PyValue where
  | pstr (s : String)
  | pdict (d : List (String × PyValue))
  | pother (r : String)

/-- Models the JSON string escaping performed by `json.dumps` on the
characters that matter here (backslash, quote, and common control
characters); other characters pass through. -/
def jsonEscapeChar (c : Char) : String :=
  if c = '\\' then "\\\\"
  else if c = '\"' then "\\\""
  else if c = '\n' then "\\n"
  else if c = '\t' then "\\t"
  else if c = '\r' then "\\r"
  else String.singleton c

/-- Escape a whole string for JSON output. -/
def jsonEscape (s : String) : String :=
  String.join (s.data.map jsonEscapeChar)

/-- Indentation produced by `json.dumps(..., indent=2)` at nesting
level `n`. -/
def jsonIndent (n : Nat) : String :=
  String.join (List.replicate n "  ")

mutual
/-- Models `json.dumps(v, indent=2)`.  Strings and (nested) dicts are
serializable; any other object makes `json.dumps` raise `TypeError`,
modelled as `none`. -/
def jsonDumps : PyValue → Nat → Option String
  | .pstr s, _ => some ("\"" ++ jsonEscape s ++ "\"")
  | .pdict [], _ => some "\x7b\x7d"
  | .pdict (e :: es), lvl =>
    match jsonDumpsEntries (e :: es) (lvl + 1) with
    | none => none
    | some body => some ("\x7b\n" ++ body ++ "\n" ++ jsonIndent lvl ++ "\x7d")
  | .pother _, _ => none

/-- Serialize the comma-separated, newline-broken entry list of a dict at
the given indentation level. -/
def jsonDumpsEntries : List (String × PyValue) → Nat → Option String
  | [], _ => some ""
  | [(k, v)], lvl =>
    match jsonDumps v lvl with
    | none => none
    | some sv => some (jsonIndent lvl ++ "\"" ++ jsonEscape k ++ "\": " ++ sv)
  | (k, v) :: e :: es, lvl =>
    match jsonDumps v lvl, jsonDumpsEntries (e :: es) lvl with
    | some sv, some rest =>
      some (jsonIndent lvl ++ "\"" ++ jsonEscape k ++ "\": " ++ sv ++ ",\n" ++ rest)
    | _, _ => none
end

/-- The serialization step of `_on_context_update`
(`src/inframe/recorder.py` lines 55–62): pass a string through unchanged,
JSON-encode a dict with `json.dumps(..., indent=2)` (which can raise,
hence `Option`), and take `str(...)` of anything else. -/
def serializeContext : PyValue → Option String
  | .pstr s => some s
  | .pdict d => jsonDumps (.pdict d) 0
  | .pother r => some r

/-- Failure injection for `_on_context_update`: whether
`context_integrator.get_current_context` raises and whether
`cache_file.write_text` raises. -/
structure UpdateBehavior where
  getContextRaises : Bool := false
  writeRaises : Bool := false
  deriving Repr, DecidableEq

namespace ContextRecorder

/-- The body of the `try` block of `ContextRecorder._on_context_update`
(`src/inframe/recorder.py` lines 51–65): fetch the current context
(`cur` is the value the integrator would return), serialize it, and
overwrite the cache file.  Any raising step yields `Except.error`. -/
def on_context_updateE (st : RecorderState) (store : CacheStore)
    (cur : PyValue) (b : UpdateBehavior) :
    Except Unit (RecorderState × CacheStore) :=
  if b.getContextRaises then .error ()
  else
    match serializeContext cur with
    | none => .error ()
    | some s =>
      if b.writeRaises then .error ()
      else .ok (st, writeFile store st.cache_file s)

/-- Embedding of `ContextRecorder._on_context_update`
(`src/inframe/recorder.py` lines 49–70): the surrounding
`try/except Exception` prints and swallows every failure, so the method
always returns normally; on failure the recorder state and the store are
left as they were. -/
def on_context_update (st : RecorderState) (store : CacheStore)
    (cur : PyValue) (b : UpdateBehavior) : RecorderState × CacheStore :=
  match on_context_updateE st store cur b with
  | .ok r => r
  | .error _ => (st, store)

end ContextRecorder

/-! The read-only MCP tools of `src/local-inframe/context_mcp_server.py`
(the network variant in `context_mcp_server_network.py` has the same two
tools over the same `cache_file`). -/

/-- The sentinel returned by both tools when the cache file does not
exist (`context_mcp_server.py` lines 26 and 46). -/
def noContextSentinel : String :=
  "No screen context available. Run 'python local_context_recorder.py' to record some context."

/-- Embedding of the `get_latest_screen_context` MCP tool
(`context_mcp_server.py` lines 18–26): return the file's content verbatim
when it exists, the sentinel otherwise. -/
def get_latest_screen_context (store : CacheStore) (cacheFile : String) : String :=
  match readFile store cacheFile with
  | some content => content
  | none => noContextSentinel

/-- Models Python `content.split('\n')`: split at every newline, keeping
empty pieces; the empty string splits to `[""]`. -/
def splitNl : List Char → List String
  | [] => [""]
  | c :: rest =>
    if c = '\n' then "" :: splitNl rest
    else
      match splitNl rest with
      | [] => [String.singleton c]
      | hd :: tl => (String.singleton c ++ hd) :: tl

/-- Models Python `line.startswith(pre)`. -/
def pyStartsWith (line pre : String) : Bool :=
  pre.data.isPrefixOf line.data

/-- The loop of `check_screen_context_status` (lines 36–39): the last line
starting with `NEW RECORDING SESSION`, if any. -/
def lastSessionLine (lines : List String) : Option String :=
  lines.foldl
    (fun acc line =>
      if pyStartsWith line "NEW RECORDING SESSION" then some line else acc)
    none

/-- Embedding of the `check_screen_context_status` MCP tool
(`context_mcp_server.py` lines 28–46). -/
def check_screen_context_status (store : CacheStore) (cacheFile : String) : String :=
  match readFile store cacheFile with
  | some content =>
    let lines := splitNl content.data
    match lastSessionLine lines with
    | some recent =>
      "Screen context is available. " ++ recent ++
        "\nTotal content length: " ++ toString content.length ++ " characters"
    | none =>
      "Screen context file exists but no sessions found. Content length: " ++
        toString content.length ++ " characters"
  | none => noContextSentinel

/-! Day-keyed cache paths.  The writer CLI
(`local_context_recorder.py` line 67) defaults the cache file to
`Path.home() / f".cache/inframe/{datetime.now().strftime('%Y%m%d')}"`,
while both MCP servers (`context_mcp_server.py` lines 15–16,
`context_mcp_server_network.py` lines 15–16) read
`Path.home() / f'.cache/inframe/{datetime.now().strftime("%d%m%Y")}'`. -/

/-- A calendar date, as the fields `strftime` formats. -/
structure Date where
  year : Nat
  month : Nat
  day : Nat
  deriving Repr, DecidableEq

/-- Zero-padded two-digit field (`%d`, `%m`). -/
def pad2 (n : Nat) : String :=
  if n < 10 then "0" ++ toString n else toString n

/-- Zero-padded four-digit year (`%Y`). -/
def pad4 (n : Nat) : String :=
  if n < 10 then "000" ++ toString n
  else if n < 100 then "00" ++ toString n
  else if n < 1000 then "0" ++ toString n
  else toString n

/-- `datetime.now().strftime('%Y%m%d')` — the day key used by the writer
CLI's default cache path. -/
def writerDayKey (d : Date) : String :=
  pad4 d.year ++ pad2 d.month ++ pad2 d.day

/-- `datetime.now().strftime('%d%m%Y')` — the day key used by both MCP
servers. -/
def readerDayKey (d : Date) : String :=
  pad2 d.day ++ pad2 d.month ++ pad4 d.year

/-- The cache path the recorder CLI writes for day `d`
(`local_context_recorder.py` line 67). -/
def writerCacheFile (home : String) (d : Date) : String :=
  home ++ "/.cache/inframe/" ++ writerDayKey d

/-- The cache path the MCP servers read for day `d`
(`context_mcp_server.py` line 16). -/
def readerCacheFile (home : String) (d : Date) : String :=
  home ++ "/.cache/inframe/" ++ readerDayKey d

/-! The standalone recorder CLI, `src/local-inframe/local_context_recorder.py`.
`main_async` builds a `ContextRecorder`, adds one recorder, starts it —
returning early (after printing `"Failed to start recording."`) when
`start` comes back `False` — then sleeps, stops, and optionally prints
the cache file.  Nothing in `main`/`main_async` calls `sys.exit` or lets
an exception escape on the start-failure path, so the process exit code
is 0 unless an exception propagates out of `asyncio.run`. -/

/-- Outcome of one run of the CLI: the process exit code and whether the
recording was actually started. -/
structure CliOutcome where
  exitCode : Nat
  started : Bool
  deriving Repr, DecidableEq

/-- Embedding of `main` / `main_async` of
`src/local-inframe/local_context_recorder.py` (lines 16–70), with failure
injection for the start and stop collaborator calls.  A Python process
that finishes `main` normally exits with code 0; an uncaught exception
would exit non-zero (modelled as 1). -/
def local_context_recorder_main (id : String) (sb : StartBehavior)
    (tb : StopBehavior) : CliOutcome :=
  let st0 := ContextRecorder.add_recorder {} id
  let r := ContextRecorder.start st0 id sb
  if r.2 = false then
    { exitCode := 0, started := false }
  else
    match ContextRecorder.stop r.1 id tb with
    | .ok _ => { exitCode := 0, started := true }
    | .error _ => { exitCode := 1, started := true }

/-! Claim C1 — behaviour of `ContextRecorder.start`. -/

/-- Postcondition of a `start` call that returned `True`: the record is
active with both per-session collaborators started, the shared integrator
is started, the global recording flag is set, and the active count was
incremented — all of which the code does only after the three start calls
succeeded. -/
def startSuccessPost (st : RecorderState) (id : String) (b : StartBehavior) : Prop :=
  (ContextRecorder.start st id b).2 = true →
    lookupRec (ContextRecorder.start st id b).1.recorders id =
        some { is_recording := true,
               stages := { videoStarted := true, pipelineStarted := true } } ∧
      (ContextRecorder.start st id b).1.integratorStarted = true ∧
      (ContextRecorder.start st id b).1.is_recording = true ∧
      (ContextRecorder.start st id b).1.active_recorders = st.active_recorders + 1

/-- Postcondition of a `start` call that returned `False` on a previously
inactive record: the record is still inactive and the global counters are
unchanged, but when the video stream had already started (`videoStartOk`)
the capture stream remains started — the code performs no rollback. -/
def startFailurePost (st : RecorderState) (id : String) (b : StartBehavior) : Prop :=
  (ContextRecorder.start st id b).2 = false →
    ∃ c', lookupRec (ContextRecorder.start st id b).1.recorders id = some c' ∧
      c'.is_recording = false ∧
      (ContextRecorder.start st id b).1.is_recording = st.is_recording ∧
      (ContextRecorder.start st id b).1.active_recorders = st.active_recorders ∧
      (b.videoStartOk = false → (ContextRecorder.start st id b).1 = st) ∧
      (b.videoStartOk = true → c'.stages.videoStarted = true)

/-- Session `id` is observably inactive in `st` (vacuously so when it is
not in the registry). -/
def inactiveAt (st : RecorderState) (id : String) : Prop :=
  ∀ c, lookupRec st.recorders id = some c → c.is_recording = false

/-- Concrete two-session registry for the C3 witness: both sessions are
active, the global flag is set, the count is 2. -/
def c3WitnessState : RecorderState :=
  { recorders :=
      [("a", { is_recording := true,
               stages := { videoStarted := true, pipelineStarted := true } }),
       ("b", { is_recording := true,
               stages := { videoStarted := true, pipelineStarted := true } })],
    is_recording := true,
    active_recorders := 2 }

/-- Injected stop behaviour for the C3 witness: session "a"'s pipeline
stop raises, session "b" stops cleanly. -/
def c3WitnessBehaviors : List (String × StopBehavior) :=
  [("a", { pipelineStopRaises := true, videoStopRaises := false })]

/-- An operation on the recorder registry, with its injected collaborator
failures. -/
inductive Op where
  | create (id : String)
  | startOp (id : String) (b : StartBehavior)
  | stopOp (id : String) (b : StopBehavior)
  | shutdownOp (bs : List (String × StopBehavior))

/-- Apply one operation to the registry state.  A `stop` whose `KeyError`
escapes to the caller leaves the state unchanged. -/
def applyOp (st : RecorderState) : Op → RecorderState
  | .create id => ContextRecorder.add_recorder st id
  | .startOp id b => (ContextRecorder.start st id b).1
  | .stopOp id b =>
    match ContextRecorder.stop st id b with
    | .ok s => s
    | .error _ => st
  | .shutdownOp bs => ContextRecorder.shutdown st bs

/-- Side conditions under which the counting invariant is preserved:
sessions are created under fresh ids (as `uuid4` guarantees), `start` is
not invoked on an already-active session, and no injected stop failure
hits a session that is still active at `shutdown`.  Plain `stop` may fail
freely. -/
def goodOp (st : RecorderState) : Op → Prop
  | .create id => lookupRec st.recorders id = none
  | .startOp id _ =>
    match lookupRec st.recorders id with
    | some c => c.is_recording = false
    | none => True
  | .stopOp _ _ => True
  | .shutdownOp bs => ∀ id c, lookupRec st.recorders id = some c →
      c.is_recording = true → (ContextRecorder.lookupStop bs id).clean

/-- Registry states reachable from a fresh `ContextRecorder` by sequences
of operations satisfying `goodOp`. -/
inductive ReachableGood : RecorderState → Prop where
  | init : ReachableGood {}
  | step {st : RecorderState} {op : Op} :
      ReachableGood st → goodOp st op → ReachableGood (applyOp st op)

/-- The claimed invariant: the active count equals the number of active
session records and the global flag is set iff that count is positive. -/
def registryInvariant (st : RecorderState) : Prop :=
  st.active_recorders = countActive st.recorders ∧
  st.is_recording = decide (0 < countActive st.recorders)

instance (st : RecorderState) : Decidable (registryInvariant st) := by
  unfold registryInvariant
  infer_instance

/-- Concrete one-session active registry for the C10 witness. -/
def c10WitnessState : RecorderState :=
  { recorders :=
      [("a", { is_recording := true,
               stages := { videoStarted := true, pipelineStarted := true } })],
    is_recording := true,
    active_recorders := 1 }

/-! Basic lemmas about the registry association list. -/

theorem lookupRec_updateRec_self {rs : List (String × RecorderConfig)} {id : String}
    {c0 c : RecorderConfig} (h : lookupRec rs id = some c0) :
    lookupRec (updateRec rs id c) id = some c := by
  induction rs with
  | nil => simp [lookupRec] at h
  | cons hd tl ih =>
    obtain ⟨k, c1⟩ := hd
    by_cases hk : k = id
    · simp [lookupRec, updateRec, hk]
    · simp only [lookupRec, updateRec, if_neg hk] at h ⊢
      exact ih h

theorem lookupRec_updateRec_ne {rs : List (String × RecorderConfig)} {id j : String}
    {c : RecorderConfig} (h : j ≠ id) :
    lookupRec (updateRec rs id c) j = lookupRec rs j := by
  induction rs with
  | nil => rfl
  | cons hd tl ih =>
    obtain ⟨k, c1⟩ := hd
    by_cases hk : k = id
    · subst hk
      simp [lookupRec, updateRec, Ne.symm h]
    · by_cases hj : k = j <;> simp [lookupRec, updateRec, hk, hj, ih, h]

theorem updateRec_self {rs : List (String × RecorderConfig)} {id : String}
    {c : RecorderConfig} (h : lookupRec rs id = some c) :
    updateRec rs id c = rs := by
  induction rs with
  | nil => rfl
  | cons hd tl ih =>
    obtain ⟨k, c1⟩ := hd
    by_cases hk : k = id
    · simp only [lookupRec, if_pos hk] at h
      injection h with h2
      simp [updateRec, hk, h2]
    · simp only [lookupRec, if_neg hk] at h
      simp [updateRec, hk, ih h]

theorem keys_updateRec (rs : List (String × RecorderConfig)) (id : String)
    (c : RecorderConfig) :
    (updateRec rs id c).map Prod.fst = rs.map Prod.fst := by
  induction rs with
  | nil => rfl
  | cons hd tl ih =>
    obtain ⟨k, c1⟩ := hd
    by_cases hk : k = id <;> simp [updateRec, hk, ih]

theorem lookupRec_isSome_of_mem_keys {rs : List (String × RecorderConfig)} {id : String}
    (h : id ∈ rs.map Prod.fst) : (lookupRec rs id).isSome := by
  induction rs with
  | nil => simp at h
  | cons hd tl ih =>
    obtain ⟨k, c1⟩ := hd
    by_cases hk : k = id
    · simp [lookupRec, hk]
    · simp only [List.map_cons, List.mem_cons] at h
      rcases h with h | h
      · exact absurd h.symm hk
      · simp only [lookupRec, if_neg hk]
        exact ih h

theorem mem_keys_of_lookupRec {rs : List (String × RecorderConfig)} {id : String}
    {c : RecorderConfig} (h : lookupRec rs id = some c) : id ∈ rs.map Prod.fst := by
  induction rs with
  | nil => simp [lookupRec] at h
  | cons hd tl ih =>
    obtain ⟨k, c1⟩ := hd
    by_cases hk : k = id
    · simp [hk]
    · simp only [lookupRec, if_neg hk] at h
      simp [ih h]

theorem countActive_nonneg (rs : List (String × RecorderConfig)) :
    0 ≤ countActive rs := by
  induction rs with
  | nil => simp [countActive]
  | cons hd tl ih =>
    obtain ⟨k, c⟩ := hd
    simp only [countActive]
    split <;> omega

theorem countActive_updateRec {rs : List (String × RecorderConfig)} {id : String}
    {c0 : RecorderConfig} (c : RecorderConfig) (h : lookupRec rs id = some c0) :
    countActive (updateRec rs id c) =
      countActive rs - (if c0.is_recording then 1 else 0)
        + (if c.is_recording then 1 else 0) := by
  induction rs with
  | nil => simp [lookupRec] at h
  | cons hd tl ih =>
    obtain ⟨k, c1⟩ := hd
    by_cases hk : k = id
    · simp only [lookupRec, if_pos hk] at h
      cases h
      simp only [updateRec, if_pos hk, countActive]
      ring
    · simp only [lookupRec, if_neg hk] at h
      simp only [updateRec, if_neg hk, countActive, ih h]
      ring

theorem countActive_pos_of_active {rs : List (String × RecorderConfig)} {id : String}
    {c : RecorderConfig} (h : lookupRec rs id = some c) (ha : c.is_recording = true) :
    1 ≤ countActive rs := by
  induction rs with
  | nil => simp [lookupRec] at h
  | cons hd tl ih =>
    obtain ⟨k, c1⟩ := hd
    have h0 := countActive_nonneg tl
    by_cases hk : k = id
    · simp only [lookupRec, if_pos hk] at h
      cases h
      simp only [countActive, ha, if_pos]
      omega
    · simp only [lookupRec, if_neg hk] at h
      have := ih h
      simp only [countActive]
      split <;> omega

theorem countActive_append (rs1 rs2 : List (String × RecorderConfig)) :
    countActive (rs1 ++ rs2) = countActive rs1 + countActive rs2 := by
  induction rs1 with
  | nil => simp [countActive]
  | cons hd tl ih =>
    obtain ⟨k, c⟩ := hd
    simp only [List.cons_append, countActive, List.append_eq, ih]
    ring

theorem lookupRec_append_of_none {rs1 rs2 : List (String × RecorderConfig)} {j : String}
    (h : lookupRec rs1 j = none) :
    lookupRec (rs1 ++ rs2) j = lookupRec rs2 j := by
  induction rs1 with
  | nil => rfl
  | cons hd tl ih =>
    obtain ⟨k, c⟩ := hd
    by_cases hk : k = j
    · simp [lookupRec, hk] at h
    · simp only [lookupRec, if_neg hk] at h
      simp only [List.cons_append, lookupRec, if_neg hk]
      exact ih h

theorem lookupRec_append_of_some {rs1 rs2 : List (String × RecorderConfig)} {j : String}
    {c : RecorderConfig} (h : lookupRec rs1 j = some c) :
    lookupRec (rs1 ++ rs2) j = some c := by
  induction rs1 with
  | nil => simp [lookupRec] at h
  | cons hd tl ih =>
    obtain ⟨k, c1⟩ := hd
    by_cases hk : k = j
    · simp only [lookupRec, if_pos hk] at h
      simp [lookupRec, hk, h]
    · simp only [lookupRec, if_neg hk] at h
      simp only [List.cons_append, lookupRec, if_neg hk]
      exact ih h


/-- C1 (counterexample to the claim as stated): starting session "a" with
the capture stream starting fine and the transcription pipeline raising
makes `start` return `False`, yet the session's capture stream remains
started — contradicting "no sub-stage resource remains started". -/
theorem c1_start_failure_keeps_capture_running :
    (ContextRecorder.start (ContextRecorder.add_recorder {} "a") "a"
        { videoStartOk := true, pipelineStartRaises := true,
          integratorStartRaises := false }).2 = false ∧
    lookupRec (ContextRecorder.start (ContextRecorder.add_recorder {} "a") "a"
        { videoStartOk := true, pipelineStartRaises := true,
          integratorStartRaises := false }).1.recorders "a" =
      some { is_recording := false,
             stages := { videoStarted := true, pipelineStarted := false } } := by
  decide

/-- C1 (amended): for a session known to the registry and not already
active, if `start` returns true then the record is active, the global
recording flag is set, the count is incremented, and all three sub-stages
were started (the active flag being set only after all three succeed);
if `start` returns false the record stays inactive and the counters are
unchanged, but a capture stream that had already started is NOT stopped —
it remains started whenever `videoStartOk` held and a later stage
failed. -/
theorem c1_start_spec (st : RecorderState) (id : String) (b : StartBehavior)
    (c : RecorderConfig) (hc : lookupRec st.recorders id = some c)
    (hin : c.is_recording = false) :
    startSuccessPost st id b ∧ startFailurePost st id b := by
  obtain ⟨cir, cv, cp⟩ := c
  simp only at hin
  subst hin
  cases hv : b.videoStartOk with
  | false =>
    constructor
    · intro htrue
      simp [ContextRecorder.start, hc, hv] at htrue
    · intro _
      refine ⟨⟨false, cv, cp⟩, ?_, rfl, ?_, ?_, ?_, ?_⟩
      · simp [ContextRecorder.start, hc, hv]
      · simp [ContextRecorder.start, hc, hv]
      · simp [ContextRecorder.start, hc, hv]
      · intro _
        simp [ContextRecorder.start, hc, hv]
      · intro h
        rw [hv] at h
        exact absurd h (by simp)
  | true =>
    cases hp : b.pipelineStartRaises with
    | true =>
      have h1 := lookupRec_updateRec_self
        (c := { is_recording := false,
                stages := { videoStarted := true, pipelineStarted := cp } }) hc
      constructor
      · intro htrue
        simp [ContextRecorder.start, hc, hv, hp] at htrue
      · intro _
        refine ⟨{ is_recording := false,
                  stages := { videoStarted := true, pipelineStarted := cp } },
            ?_, rfl, ?_, ?_, ?_, ?_⟩
        · simpa [ContextRecorder.start, hc, hv, hp] using h1
        · simp [ContextRecorder.start, hc, hv, hp]
        · simp [ContextRecorder.start, hc, hv, hp]
        · intro h
          rw [hv] at h
          exact absurd h (by simp)
        · intro _
          rfl
    | false =>
      cases hi : b.integratorStartRaises with
      | true =>
        have h1 := lookupRec_updateRec_self
          (c := { is_recording := false,
                  stages := { videoStarted := true, pipelineStarted := cp } }) hc
        have h2 := lookupRec_updateRec_self
          (c := { is_recording := false,
                  stages := { videoStarted := true, pipelineStarted := true } }) h1
        constructor
        · intro htrue
          simp [ContextRecorder.start, hc, hv, hp, hi] at htrue
        · intro _
          refine ⟨{ is_recording := false,
                    stages := { videoStarted := true, pipelineStarted := true } },
              ?_, rfl, ?_, ?_, ?_, ?_⟩
          · simpa [ContextRecorder.start, hc, hv, hp, hi] using h2
          · simp [ContextRecorder.start, hc, hv, hp, hi]
          · simp [ContextRecorder.start, hc, hv, hp, hi]
          · intro h
            rw [hv] at h
            exact absurd h (by simp)
          · intro _
            rfl
      | false =>
        have h1 := lookupRec_updateRec_self
          (c := { is_recording := false,
                  stages := { videoStarted := true, pipelineStarted := cp } }) hc
        have h2 := lookupRec_updateRec_self
          (c := { is_recording := false,
                  stages := { videoStarted := true, pipelineStarted := true } }) h1
        have h3 := lookupRec_updateRec_self
          (c := { is_recording := true,
                  stages := { videoStarted := true, pipelineStarted := true } }) h2
        constructor
        · intro _
          refine ⟨?_, ?_, ?_, ?_⟩
          · simpa [ContextRecorder.start, hc, hv, hp, hi] using h3
          · simp [ContextRecorder.start, hc, hv, hp, hi]
          · simp [ContextRecorder.start, hc, hv, hp, hi]
          · simp [ContextRecorder.start, hc, hv, hp, hi]
        · intro hfalse
          simp [ContextRecorder.start, hc, hv, hp, hi] at hfalse

/-- C1 witness: the amended specification applied to the concrete
one-session registry with no injected failure. -/
theorem c1_start_spec_witness :
    lookupRec (ContextRecorder.add_recorder {} "w1").recorders "w1" =
        some ({} : RecorderConfig) ∧
    ({} : RecorderConfig).is_recording = false ∧
    (startSuccessPost (ContextRecorder.add_recorder {} "w1") "w1" {} ∧
      startFailurePost (ContextRecorder.add_recorder {} "w1") "w1" {}) :=
  ⟨by decide, rfl, c1_start_spec _ "w1" {} {} (by decide) rfl⟩

/-! Claim C2 — `stop` on unknown or inactive sessions. -/

/-- C2 (counterexample to the claim as stated): `stop` on a session id
that is unknown to the registry does not return normally — the dict
access `self.recorders[recorder_id]` raises `KeyError`. -/
theorem c2_stop_unknown_id_raises :
    ContextRecorder.stop {} "x" {} = .error () := rfl

/-- C2 (amended): for a session id KNOWN to the registry, `stop` is a
no-op when the record is already inactive — it returns normally with the
state unchanged — and `stop` is idempotent: a second `stop` right after a
completed one returns the state of the first unchanged.  (For an unknown
id, `stop` instead raises `KeyError`.) -/
theorem c2_stop_spec (st st' : RecorderState) (id : String) (b : StopBehavior)
    (c : RecorderConfig) (hc : lookupRec st.recorders id = some c) :
    (c.is_recording = false → ContextRecorder.stop st id b = .ok st) ∧
    (ContextRecorder.stop st id b = .ok st' →
      ContextRecorder.stop st' id b = .ok st') := by
  obtain ⟨cir, cv, cp⟩ := c
  constructor
  · intro h
    simp only at h
    simp [ContextRecorder.stop, hc, h]
  · intro h
    cases cir with
    | false =>
      simp [ContextRecorder.stop, hc] at h
      subst h
      simp [ContextRecorder.stop, hc]
    | true =>
      cases hbp : b.pipelineStopRaises with
      | true =>
        simp [ContextRecorder.stop, hc, hbp] at h
        subst h
        simp [ContextRecorder.stop, hc, hbp]
      | false =>
        cases hbv : b.videoStopRaises with
        | true =>
          simp [ContextRecorder.stop, hc, hbp, hbv] at h
          subst h
          have h1 := lookupRec_updateRec_self
            (c := { is_recording := true,
                    stages := { videoStarted := cv, pipelineStarted := false } }) hc
          simp [ContextRecorder.stop, h1, hbp, hbv, updateRec_self h1]
        | false =>
          simp [ContextRecorder.stop, hc, hbp, hbv] at h
          subst h
          have h1 := lookupRec_updateRec_self
            (c := { is_recording := true,
                    stages := { videoStarted := cv, pipelineStarted := false } }) hc
          have h2 := lookupRec_updateRec_self
            (c := { is_recording := false,
                    stages := { videoStarted := false, pipelineStarted := false } }) h1
          simp [ContextRecorder.stop, h2]

/-- C2 witness: the amended specification applied to a concrete registry
holding the single inactive session "w2". -/
theorem c2_stop_spec_witness :
    lookupRec (ContextRecorder.add_recorder {} "w2").recorders "w2" =
        some ({} : RecorderConfig) ∧
    ((({} : RecorderConfig).is_recording = false →
        ContextRecorder.stop (ContextRecorder.add_recorder {} "w2") "w2" {} =
          .ok (ContextRecorder.add_recorder {} "w2")) ∧
      (ContextRecorder.stop (ContextRecorder.add_recorder {} "w2") "w2" {} =
          .ok (ContextRecorder.add_recorder {} "w2") →
        ContextRecorder.stop (ContextRecorder.add_recorder {} "w2") "w2" {} =
          .ok (ContextRecorder.add_recorder {} "w2"))) :=
  ⟨by decide, c2_stop_spec _ _ "w2" {} {} (by decide)⟩

/-! Infrastructure for `shutdown`: how `stop` and the shutdown loop act on
keys and on the `is_recording` flags of the registry. -/


theorem stop_keys {st st' : RecorderState} {id : String} {b : StopBehavior}
    (h : ContextRecorder.stop st id b = .ok st') :
    st'.recorders.map Prod.fst = st.recorders.map Prod.fst := by
  rcases hl : lookupRec st.recorders id with _ | c
  · simp [ContextRecorder.stop, hl] at h
  · obtain ⟨cir, cv, cp⟩ := c
    cases cir with
    | false =>
      simp [ContextRecorder.stop, hl] at h
      subst h
      rfl
    | true =>
      cases hbp : b.pipelineStopRaises with
      | true =>
        simp [ContextRecorder.stop, hl, hbp] at h
        subst h
        rfl
      | false =>
        cases hbv : b.videoStopRaises with
        | true =>
          simp [ContextRecorder.stop, hl, hbp, hbv] at h
          subst h
          simp [keys_updateRec]
        | false =>
          simp [ContextRecorder.stop, hl, hbp, hbv] at h
          subst h
          simp [keys_updateRec]

/-- A failure-free `stop` of an active session succeeds and leaves the
session inactive with both collaborators stopped, preserving the key
set. -/
theorem stop_clean_result {st : RecorderState} {id : String} {b : StopBehavior}
    {c : RecorderConfig} (hl : lookupRec st.recorders id = some c)
    (ha : c.is_recording = true) (hbp : b.pipelineStopRaises = false)
    (hbv : b.videoStopRaises = false) :
    ∃ st', ContextRecorder.stop st id b = .ok st' ∧
      lookupRec st'.recorders id =
        some { is_recording := false,
               stages := { videoStarted := false, pipelineStarted := false } } := by
  obtain ⟨cir, cv, cp⟩ := c
  simp only at ha
  subst ha
  have h1 := lookupRec_updateRec_self
    (c := { is_recording := true,
            stages := { videoStarted := cv, pipelineStarted := false } }) hl
  have h2 := lookupRec_updateRec_self
    (c := { is_recording := false,
            stages := { videoStarted := false, pipelineStarted := false } }) h1
  refine ⟨{ st with
      recorders := updateRec
        (updateRec st.recorders id
          { is_recording := true,
            stages := { videoStarted := cv, pipelineStarted := false } })
        id { is_recording := false,
             stages := { videoStarted := false, pipelineStarted := false } },
      active_recorders := st.active_recorders - 1,
      is_recording := if st.active_recorders - 1 = 0 then false else st.is_recording },
    ?_, h2⟩
  simp [ContextRecorder.stop, hl, hbp, hbv]

/-- Stopping session `j` never makes any session active. -/
theorem stop_preserves_inactive {st st' : RecorderState} {id j : String}
    {b : StopBehavior} (h : ContextRecorder.stop st j b = .ok st')
    (hin : inactiveAt st id) : inactiveAt st' id := by
  rcases hl : lookupRec st.recorders j with _ | c
  · simp [ContextRecorder.stop, hl] at h
  · obtain ⟨cir, cv, cp⟩ := c
    cases cir with
    | false =>
      simp [ContextRecorder.stop, hl] at h
      subst h
      exact hin
    | true =>
      by_cases hj : id = j
      · subst hj
        have := hin _ hl
        simp at this
      · cases hbp : b.pipelineStopRaises with
        | true =>
          simp [ContextRecorder.stop, hl, hbp] at h
          subst h
          exact hin
        | false =>
          cases hbv : b.videoStopRaises with
          | true =>
            simp [ContextRecorder.stop, hl, hbp, hbv] at h
            subst h
            intro c' hc'
            rw [lookupRec_updateRec_ne hj] at hc'
            exact hin _ hc'
          | false =>
            simp [ContextRecorder.stop, hl, hbp, hbv] at h
            subst h
            intro c' hc'
            rw [lookupRec_updateRec_ne hj, lookupRec_updateRec_ne hj] at hc'
            exact hin _ hc'

theorem shutdownStep_keys (bs : List (String × StopBehavior)) (st : RecorderState)
    (j : String) :
    (ContextRecorder.shutdownStep bs st j).recorders.map Prod.fst =
      st.recorders.map Prod.fst := by
  rcases hl : lookupRec st.recorders j with _ | c
  · simp [ContextRecorder.shutdownStep, hl]
  · by_cases ha : c.is_recording = true
    · rcases hs : ContextRecorder.stop st j (ContextRecorder.lookupStop bs j) with e | s
      · simp [ContextRecorder.shutdownStep, hl, ha, hs]
      · simp [ContextRecorder.shutdownStep, hl, ha, hs, stop_keys hs]
    · simp [ContextRecorder.shutdownStep, hl, ha]

theorem shutdownStep_preserves_inactive {bs : List (String × StopBehavior)}
    {st : RecorderState} {id j : String} (hin : inactiveAt st id) :
    inactiveAt (ContextRecorder.shutdownStep bs st j) id := by
  rcases hl : lookupRec st.recorders j with _ | c
  · simpa [ContextRecorder.shutdownStep, hl] using hin
  · by_cases ha : c.is_recording = true
    · rcases hs : ContextRecorder.stop st j (ContextRecorder.lookupStop bs j) with e | s
      · simpa [ContextRecorder.shutdownStep, hl, ha, hs] using hin
      · simpa [ContextRecorder.shutdownStep, hl, ha, hs] using
          stop_preserves_inactive hs hin
    · simpa [ContextRecorder.shutdownStep, hl, ha] using hin

/-- Processing session `id` itself in the shutdown loop with a
failure-free injected behaviour leaves it inactive. -/
theorem shutdownStep_establishes_inactive (bs : List (String × StopBehavior))
    (st : RecorderState) (id : String)
    (hb : (ContextRecorder.lookupStop bs id).clean) :
    inactiveAt (ContextRecorder.shutdownStep bs st id) id := by
  obtain ⟨hbp, hbv⟩ := hb
  rcases hl : lookupRec st.recorders id with _ | c
  · intro c' hc'
    simp [ContextRecorder.shutdownStep, hl] at hc'
  · by_cases ha : c.is_recording = true
    · obtain ⟨s, hs, hlook⟩ := stop_clean_result hl ha hbp hbv
      intro c' hc'
      simp [ContextRecorder.shutdownStep, hl, ha, hs] at hc'
      rw [hlook] at hc'
      cases hc'
      rfl
    · intro c' hc'
      simp [ContextRecorder.shutdownStep, hl, ha] at hc'
      subst hc'
      simpa using ha

theorem foldl_shutdownStep_keys (bs : List (String × StopBehavior))
    (K : List String) (st : RecorderState) :
    (K.foldl (ContextRecorder.shutdownStep bs) st).recorders.map Prod.fst =
      st.recorders.map Prod.fst := by
  induction K generalizing st with
  | nil => rfl
  | cons j K ih =>
    simp only [List.foldl_cons]
    rw [ih, shutdownStep_keys]

/-- After the shutdown loop has run over the key list `K`, a session is
inactive provided it either was already inactive, or appears in `K` and
its injected stop behaviour is failure-free. -/
theorem foldl_shutdownStep_inactive (bs : List (String × StopBehavior))
    (K : List String) (st : RecorderState) (id : String)
    (h : (id ∈ K ∧ (ContextRecorder.lookupStop bs id).clean) ∨ inactiveAt st id) :
    inactiveAt (K.foldl (ContextRecorder.shutdownStep bs) st) id := by
  induction K generalizing st with
  | nil =>
    rcases h with ⟨h, _⟩ | h
    · simp at h
    · exact h
  | cons j K ih =>
    simp only [List.foldl_cons]
    rcases h with ⟨hmem, hb⟩ | hin
    · rcases List.mem_cons.mp hmem with hj | hmem
      · subst hj
        exact ih _ (Or.inr (shutdownStep_establishes_inactive bs st id hb))
      · exact ih _ (Or.inl ⟨hmem, hb⟩)
    · exact ih _ (Or.inr (shutdownStep_preserves_inactive hin))

/-! Claim C3 — `shutdown` resets the counters and isolates per-session
stop failures. -/

/-- C3: for every prior registry state and every injection of per-session
stop failures, `shutdown` leaves the active count at 0 and the global
recording flag false; moreover each session whose own stop behaviour is
failure-free ends up inactive — another session's failure does not
prevent it from being stopped. -/
theorem c3_shutdown_resets (st : RecorderState)
    (bs : List (String × StopBehavior)) (id : String)
    (hmem : (lookupRec st.recorders id).isSome = true)
    (hb : (ContextRecorder.lookupStop bs id).clean) :
    (ContextRecorder.shutdown st bs).active_recorders = 0 ∧
    (ContextRecorder.shutdown st bs).is_recording = false ∧
    ∃ c, lookupRec (ContextRecorder.shutdown st bs).recorders id = some c ∧
      c.is_recording = false := by
  refine ⟨rfl, rfl, ?_⟩
  obtain ⟨c0, hc0⟩ := Option.isSome_iff_exists.mp hmem
  have hK : id ∈ st.recorders.map Prod.fst := mem_keys_of_lookupRec hc0
  have hinact :
      inactiveAt ((st.recorders.map Prod.fst).foldl
        (ContextRecorder.shutdownStep bs) st) id :=
    foldl_shutdownStep_inactive bs _ st id (Or.inl ⟨hK, hb⟩)
  have hkeys := foldl_shutdownStep_keys bs (st.recorders.map Prod.fst) st
  have hsome : (lookupRec ((st.recorders.map Prod.fst).foldl
      (ContextRecorder.shutdownStep bs) st).recorders id).isSome :=
    lookupRec_isSome_of_mem_keys (by rw [hkeys]; exact hK)
  obtain ⟨c, hc⟩ := Option.isSome_iff_exists.mp hsome
  exact ⟨c, hc, hinact c hc⟩


/-- C3 witness: shutdown of the two-session registry with session "a"'s
stop injected to fail still zeroes the counters, and session "b" is
stopped. -/
theorem c3_shutdown_resets_witness :
    (lookupRec c3WitnessState.recorders "b").isSome = true ∧
    (ContextRecorder.lookupStop c3WitnessBehaviors "b").clean ∧
    ((ContextRecorder.shutdown c3WitnessState c3WitnessBehaviors).active_recorders = 0 ∧
      (ContextRecorder.shutdown c3WitnessState c3WitnessBehaviors).is_recording = false ∧
      ∃ c, lookupRec
          (ContextRecorder.shutdown c3WitnessState c3WitnessBehaviors).recorders "b" =
            some c ∧ c.is_recording = false) :=
  ⟨by decide, by decide,
    c3_shutdown_resets c3WitnessState c3WitnessBehaviors "b" (by decide) (by decide)⟩

/-! Claim C4 — the registry counting invariant over operation sequences. -/


theorem countActive_zero_of_inactive {rs : List (String × RecorderConfig)}
    (hnodup : (rs.map Prod.fst).Nodup)
    (h : ∀ id c, lookupRec rs id = some c → c.is_recording = false) :
    countActive rs = 0 := by
  induction rs with
  | nil => rfl
  | cons hd tl ih =>
    obtain ⟨k, c⟩ := hd
    have hc := h k c (by simp [lookupRec])
    have hnod := List.nodup_cons.mp hnodup
    have h' : ∀ id c', lookupRec tl id = some c' → c'.is_recording = false := by
      intro id c' hl
      have hid : id ∈ tl.map Prod.fst := mem_keys_of_lookupRec hl
      have hneq : k ≠ id := fun he => hnod.1 (he ▸ hid)
      exact h id c' (by simp [lookupRec, if_neg hneq, hl])
    simp [countActive, hc, ih hnod.2 h']

/-- One good operation preserves key uniqueness and the counting
invariant. -/
theorem applyOp_preserves (st : RecorderState) (op : Op) (hg : goodOp st op)
    (hnd : (st.recorders.map Prod.fst).Nodup) (hinv : registryInvariant st) :
    ((applyOp st op).recorders.map Prod.fst).Nodup ∧
      registryInvariant (applyOp st op) := by
  obtain ⟨hcount, hflag⟩ := hinv
  cases op with
  | create id =>
    have hfresh : id ∉ st.recorders.map Prod.fst := by
      intro hmem
      have := lookupRec_isSome_of_mem_keys hmem
      rw [hg] at this
      simp at this
    constructor
    · simp only [applyOp, ContextRecorder.add_recorder, List.map_append]
      refine hnd.append (List.nodup_singleton id) ?_
      intro a ha hb
      simp only [List.map_cons, List.map_nil, List.mem_singleton] at hb
      subst hb
      exact hfresh ha
    · constructor
      · simpa [applyOp, ContextRecorder.add_recorder, countActive_append,
          countActive] using hcount
      · simpa [applyOp, ContextRecorder.add_recorder, countActive_append,
          countActive] using hflag
  | startOp id b =>
    rcases hl : lookupRec st.recorders id with _ | c
    · simp only [applyOp, ContextRecorder.start, hl]
      exact ⟨hnd, hcount, hflag⟩
    · have hc : c.is_recording = false := by
        simpa [goodOp, hl] using hg
      obtain ⟨cir, cv, cp⟩ := c
      simp only at hc
      subst hc
      cases hv : b.videoStartOk with
      | false =>
        simp only [applyOp, ContextRecorder.start, hl, hv]
        exact ⟨hnd, hcount, hflag⟩
      | true =>
        have h1 := lookupRec_updateRec_self
          (c := { is_recording := false,
                  stages := { videoStarted := true, pipelineStarted := cp } }) hl
        have e1 : countActive (updateRec st.recorders id
            { is_recording := false,
              stages := { videoStarted := true, pipelineStarted := cp } }) =
            countActive st.recorders := by
          rw [countActive_updateRec _ hl]
          simp
        cases hp : b.pipelineStartRaises with
        | true =>
          refine ⟨?_, ?_, ?_⟩
          · simp [applyOp, ContextRecorder.start, hl, hv, hp, keys_updateRec, hnd]
          · simp only [applyOp, ContextRecorder.start, hl, hv, hp]
            simp [e1, hcount]
          · simp only [applyOp, ContextRecorder.start, hl, hv, hp]
            simp [e1, hflag]
        | false =>
          have h2 := lookupRec_updateRec_self
            (c := { is_recording := false,
                    stages := { videoStarted := true, pipelineStarted := true } }) h1
          have e2 : countActive (updateRec (updateRec st.recorders id
              { is_recording := false,
                stages := { videoStarted := true, pipelineStarted := cp } }) id
              { is_recording := false,
                stages := { videoStarted := true, pipelineStarted := true } }) =
              countActive st.recorders := by
            rw [countActive_updateRec _ h1, e1]
            simp
          cases hi : b.integratorStartRaises with
          | true =>
            refine ⟨?_, ?_, ?_⟩
            · simp [applyOp, ContextRecorder.start, hl, hv, hp, hi,
                keys_updateRec, hnd]
            · simp only [applyOp, ContextRecorder.start, hl, hv, hp, hi]
              simp [e2, hcount]
            · simp only [applyOp, ContextRecorder.start, hl, hv, hp, hi]
              simp [e2, hflag]
          | false =>
            have e3 : countActive (updateRec (updateRec (updateRec st.recorders id
                { is_recording := false,
                  stages := { videoStarted := true, pipelineStarted := cp } }) id
                { is_recording := false,
                  stages := { videoStarted := true, pipelineStarted := true } }) id
                { is_recording := true,
                  stages := { videoStarted := true, pipelineStarted := true } }) =
                countActive st.recorders + 1 := by
              rw [countActive_updateRec _ h2, e2]
              simp
            have hpos := countActive_nonneg st.recorders
            refine ⟨?_, ?_, ?_⟩
            · simp [applyOp, ContextRecorder.start, hl, hv, hp, hi,
                keys_updateRec, hnd]
            · simp [applyOp, ContextRecorder.start, hl, hv, hp, hi, e3]
              omega
            · have hgt : (0 : Int) < countActive st.recorders + 1 := by omega
              simp [applyOp, ContextRecorder.start, hl, hv, hp, hi, e3, hgt]
  | stopOp id b =>
    rcases hl : lookupRec st.recorders id with _ | c
    · simp only [applyOp, ContextRecorder.stop, hl]
      exact ⟨hnd, hcount, hflag⟩
    · obtain ⟨cir, cv, cp⟩ := c
      cases cir with
      | false =>
        simp only [applyOp, ContextRecorder.stop, hl]
        exact ⟨hnd, hcount, hflag⟩
      | true =>
        have hone : 1 ≤ countActive st.recorders :=
          countActive_pos_of_active hl rfl
        cases hbp : b.pipelineStopRaises with
        | true =>
          simp only [applyOp, ContextRecorder.stop, hl, hbp]
          exact ⟨hnd, hcount, hflag⟩
        | false =>
          have h1 := lookupRec_updateRec_self
            (c := { is_recording := true,
                    stages := { videoStarted := cv, pipelineStarted := false } }) hl
          have e1 : countActive (updateRec st.recorders id
              { is_recording := true,
                stages := { videoStarted := cv, pipelineStarted := false } }) =
              countActive st.recorders := by
            rw [countActive_updateRec _ hl]
            simp
          cases hbv : b.videoStopRaises with
          | true =>
            refine ⟨?_, ?_, ?_⟩
            · simp [applyOp, ContextRecorder.stop, hl, hbp, hbv,
                keys_updateRec, hnd]
            · simp only [applyOp, ContextRecorder.stop, hl, hbp, hbv]
              simp [e1, hcount]
            · simp only [applyOp, ContextRecorder.stop, hl, hbp, hbv]
              simp [e1, hflag]
          | false =>
            have e2 : countActive (updateRec (updateRec st.recorders id
                { is_recording := true,
                  stages := { videoStarted := cv, pipelineStarted := false } }) id
                { is_recording := false,
                  stages := { videoStarted := false, pipelineStarted := false } }) =
                countActive st.recorders - 1 := by
              rw [countActive_updateRec _ h1, e1]
              simp
            refine ⟨?_, ?_, ?_⟩
            · simp [applyOp, ContextRecorder.stop, hl, hbp, hbv,
                keys_updateRec, hnd]
            · simp [applyOp, ContextRecorder.stop, hl, hbp, hbv, e2]
              omega
            · by_cases hz : st.active_recorders - 1 = 0
              · have hle : ¬ (0 : Int) < countActive st.recorders - 1 := by omega
                simp [applyOp, ContextRecorder.stop, hl, hbp, hbv, e2, hz, hle]
              · have hlt : (0 : Int) < countActive st.recorders - 1 := by omega
                have hlt' : (0 : Int) < countActive st.recorders := by omega
                simp [applyOp, ContextRecorder.stop, hl, hbp, hbv, e2, hz, hlt,
                  hlt', hflag]
  | shutdownOp bs =>
    have hkeys := foldl_shutdownStep_keys bs (st.recorders.map Prod.fst) st
    have hall : ∀ id c,
        lookupRec ((st.recorders.map Prod.fst).foldl
          (ContextRecorder.shutdownStep bs) st).recorders id = some c →
        c.is_recording = false := by
      intro id c hlook
      have hidkeys : id ∈ st.recorders.map Prod.fst := by
        have := mem_keys_of_lookupRec hlook
        rwa [hkeys] at this
      have hsome := lookupRec_isSome_of_mem_keys hidkeys
      obtain ⟨c0, hc0⟩ := Option.isSome_iff_exists.mp hsome
      have hin : inactiveAt ((st.recorders.map Prod.fst).foldl
          (ContextRecorder.shutdownStep bs) st) id := by
        cases ha : c0.is_recording with
        | true =>
          exact foldl_shutdownStep_inactive bs _ st id
            (Or.inl ⟨hidkeys, hg id c0 hc0 ha⟩)
        | false =>
          refine foldl_shutdownStep_inactive bs _ st id (Or.inr ?_)
          intro c' hc'
          rw [hc0] at hc'
          cases hc'
          exact ha
      exact hin c hlook
    have hz : countActive ((st.recorders.map Prod.fst).foldl
        (ContextRecorder.shutdownStep bs) st).recorders = 0 :=
      countActive_zero_of_inactive (by rwa [hkeys]) hall
    refine ⟨?_, ?_, ?_⟩
    · simpa [applyOp, ContextRecorder.shutdown, hkeys] using hnd
    · simpa [applyOp, ContextRecorder.shutdown] using hz.symm
    · simp [applyOp, ContextRecorder.shutdown, hz]

/-- Key uniqueness together with the counting invariant holds in every
state reachable by good operation sequences. -/
theorem reachableGood_nodup_inv {st : RecorderState} (h : ReachableGood st) :
    (st.recorders.map Prod.fst).Nodup ∧ registryInvariant st := by
  induction h with
  | init => exact ⟨List.nodup_nil, rfl, rfl⟩
  | step h1 h2 ih => exact applyOp_preserves _ _ h2 ih.1 ih.2

/-- C4 (counterexample to the claim as stated): create a session, start
it successfully, then shut down while the session's pipeline stop raises;
the resulting state — reachable by `createSession`/`start`/`shutdown`
with a failing collaborator call — violates the counting invariant (the
count was reset to 0 while the record is still active). -/
theorem c4_invariant_violated_by_failed_shutdown :
    ¬ registryInvariant
        (applyOp (applyOp (applyOp {} (Op.create "a")) (Op.startOp "a" {}))
          (Op.shutdownOp
            [("a", { pipelineStopRaises := true, videoStopRaises := false })])) := by
  decide

/-- C4 (amended): the counting invariant — active count = number of
active session records, global flag iff count > 0 — holds in every state
reachable by sequences of createSession/start/stop/shutdown in which
sessions are created under fresh ids, `start` never targets an
already-active session, and no injected stop failure hits a session that
is still active at `shutdown` (a plain `stop` may still fail).  When a
session's stop does fail during `shutdown`, the invariant breaks: the
count and flag are reset while that record's active flag stays true. -/
theorem c4_registry_invariant (st : RecorderState) (h : ReachableGood st) :
    registryInvariant st :=
  (reachableGood_nodup_inv h).2

/-- C4 witness: the invariant at the concrete reachable state obtained by
creating session "a" and starting it successfully. -/
theorem c4_registry_invariant_witness :
    ReachableGood (applyOp (applyOp {} (Op.create "a")) (Op.startOp "a" {})) ∧
    registryInvariant (applyOp (applyOp {} (Op.create "a")) (Op.startOp "a" {})) :=
  ⟨ReachableGood.step (ReachableGood.step ReachableGood.init rfl) rfl,
    c4_registry_invariant _
      (ReachableGood.step (ReachableGood.step ReachableGood.init rfl) rfl)⟩

/-! Lemmas about the filesystem model. -/

theorem readFile_writeFile_self (store : CacheStore) (p s : String) :
    readFile (writeFile store p s) p = some s := by
  induction store with
  | nil => simp [writeFile, readFile]
  | cons hd tl ih =>
    obtain ⟨q, c⟩ := hd
    by_cases hq : q = p <;> simp [writeFile, readFile, hq, ih]

theorem readFile_writeFile_ne (store : CacheStore) {p q : String} (s : String)
    (h : q ≠ p) : readFile (writeFile store p s) q = readFile store q := by
  induction store with
  | nil =>
    simp [writeFile, readFile, Ne.symm h]
  | cons hd tl ih =>
    obtain ⟨r, c⟩ := hd
    by_cases hr : r = p
    · subst hr
      simp [writeFile, readFile, Ne.symm h]
    · simp [writeFile, readFile, hr, ih]

/-- `start` never changes the set of registered session ids. -/
theorem start_keys (st : RecorderState) (id : String) (b : StartBehavior) :
    (ContextRecorder.start st id b).1.recorders.map Prod.fst =
      st.recorders.map Prod.fst := by
  rcases hl : lookupRec st.recorders id with _ | c
  · simp [ContextRecorder.start, hl]
  · cases hv : b.videoStartOk <;> cases hp : b.pipelineStartRaises <;>
      cases hi : b.integratorStartRaises <;>
      simp [ContextRecorder.start, hl, hv, hp, hi, keys_updateRec]

/-- `stop` can only raise `KeyError`, hence never raises for a session id
present in the registry. -/
theorem stop_ne_error {st : RecorderState} {id : String} {c : RecorderConfig}
    (hl : lookupRec st.recorders id = some c) (b : StopBehavior) :
    ∀ e, ContextRecorder.stop st id b ≠ .error e := by
  intro e h
  obtain ⟨cir, cv, cp⟩ := c
  cases cir <;> cases hbp : b.pipelineStopRaises <;>
    cases hbv : b.videoStopRaises <;>
    simp [ContextRecorder.stop, hl, hbp, hbv] at h

/-! Claim C5 — the day-keyed cache path convention. -/

/-- C5: the path convention is NOT shared.  On 2025-06-01 (with home
`/Users/u`) the recorder CLI writes `<home>/.cache/inframe/20250601`
(`%Y%m%d`) while both MCP servers read `<home>/.cache/inframe/01062025`
(`%d%m%Y`) — a different file, so the readers never open the file the
writer wrote that day. -/
theorem c5_reader_writer_paths_disagree :
    writerCacheFile "/Users/u" ⟨2025, 6, 1⟩ = "/Users/u/.cache/inframe/20250601" ∧
    readerCacheFile "/Users/u" ⟨2025, 6, 1⟩ = "/Users/u/.cache/inframe/01062025" ∧
    readerCacheFile "/Users/u" ⟨2025, 6, 1⟩ ≠
      writerCacheFile "/Users/u" ⟨2025, 6, 1⟩ := by
  refine ⟨?_, ?_, ?_⟩ <;> decide

/-! Claim C6 — reads of a missing or empty cache file. -/

/-- C6 (counterexample to the claim as stated): on an existing but EMPTY
cache file, `get_latest_screen_context` returns the empty content as if
it were context, not the "no context" sentinel. -/
theorem c6_empty_file_returned_as_context :
    get_latest_screen_context [("/Users/u/.cache/inframe/01062025", "")]
        "/Users/u/.cache/inframe/01062025" = "" ∧
    "" ≠ noContextSentinel := by
  refine ⟨rfl, ?_⟩
  decide

/-- C6 (amended): a read of a MISSING cache file returns the defined
"no context" sentinel from both tools and raises nothing; but an existing
EMPTY cache file is not treated that way: `get_latest_screen_context`
returns the empty content itself, and `check_screen_context_status`
reports an existing file with no sessions. -/
theorem c6_reader_missing_and_empty (store store2 : CacheStore) (p p2 : String)
    (hmiss : readFile store p = none) (hempty : readFile store2 p2 = some "") :
    get_latest_screen_context store p = noContextSentinel ∧
    check_screen_context_status store p = noContextSentinel ∧
    get_latest_screen_context store2 p2 = "" ∧
    check_screen_context_status store2 p2 =
      "Screen context file exists but no sessions found. Content length: 0 characters" := by
  refine ⟨?_, ?_, ?_, ?_⟩
  · simp [get_latest_screen_context, hmiss]
  · simp [check_screen_context_status, hmiss]
  · simp [get_latest_screen_context, hempty]
  · unfold check_screen_context_status
    rw [hempty]
    rfl

/-- C6 witness: the amended statement at a one-file store holding an
empty cache file and an empty store. -/
theorem c6_reader_missing_and_empty_witness :
    readFile [] "/Users/u/.cache/inframe/01062025" = none ∧
    readFile [("/Users/u/.cache/inframe/01062025", "")]
        "/Users/u/.cache/inframe/01062025" = some "" ∧
    (get_latest_screen_context [] "/Users/u/.cache/inframe/01062025" =
        noContextSentinel ∧
      check_screen_context_status [] "/Users/u/.cache/inframe/01062025" =
        noContextSentinel ∧
      get_latest_screen_context [("/Users/u/.cache/inframe/01062025", "")]
        "/Users/u/.cache/inframe/01062025" = "" ∧
      check_screen_context_status [("/Users/u/.cache/inframe/01062025", "")]
        "/Users/u/.cache/inframe/01062025" =
        "Screen context file exists but no sessions found. Content length: 0 characters") :=
  ⟨rfl, rfl,
    c6_reader_missing_and_empty [] [("/Users/u/.cache/inframe/01062025", "")]
      "/Users/u/.cache/inframe/01062025" "/Users/u/.cache/inframe/01062025" rfl rfl⟩

/-! Claim C7 — the cache-write callback never touches recording state. -/

/-- C7: whatever the injected behaviour — context retrieval raising,
serialization failing (`json.dumps` `TypeError`), or the file write
raising — `_on_context_update` returns normally and leaves every session
record, the active count and the global recording flag exactly as they
were. -/
theorem c7_cache_failure_preserves_recording (st : RecorderState)
    (store : CacheStore) (cur : PyValue) (b : UpdateBehavior) :
    (ContextRecorder.on_context_update st store cur b).1.recorders = st.recorders ∧
    (ContextRecorder.on_context_update st store cur b).1.active_recorders =
      st.active_recorders ∧
    (ContextRecorder.on_context_update st store cur b).1.is_recording =
      st.is_recording := by
  have h : (ContextRecorder.on_context_update st store cur b).1 = st := by
    cases hg : b.getContextRaises with
    | true =>
      simp [ContextRecorder.on_context_update, ContextRecorder.on_context_updateE, hg]
    | false =>
      rcases hs : serializeContext cur with _ | s
      · simp [ContextRecorder.on_context_update,
          ContextRecorder.on_context_updateE, hg, hs]
      · cases hw : b.writeRaises with
        | true =>
          simp [ContextRecorder.on_context_update,
            ContextRecorder.on_context_updateE, hg, hs, hw]
        | false =>
          simp [ContextRecorder.on_context_update,
            ContextRecorder.on_context_updateE, hg, hs, hw]
  rw [h]
  exact ⟨rfl, rfl, rfl⟩

/-! Claim C8 — write-then-read equality of the cache store. -/

/-- C8: when the cache-write path completes successfully, reading the
recorder's cache file back yields exactly the serialized form of the
pushed snapshot (the string itself for a textual context, its
`json.dumps` encoding for a dict), and the write replaced that file
wholesale while leaving every other path untouched. -/
theorem c8_cache_round_trip (st st' : RecorderState) (store store' : CacheStore)
    (cur : PyValue) (b : UpdateBehavior) (q : String)
    (h : ContextRecorder.on_context_updateE st store cur b = .ok (st', store')) :
    readFile store' st.cache_file = serializeContext cur ∧
    (q ≠ st.cache_file → readFile store' q = readFile store q) := by
  cases hg : b.getContextRaises with
  | true => simp [ContextRecorder.on_context_updateE, hg] at h
  | false =>
    rcases hs : serializeContext cur with _ | s
    · simp [ContextRecorder.on_context_updateE, hg, hs] at h
    · cases hw : b.writeRaises with
      | true => simp [ContextRecorder.on_context_updateE, hg, hs, hw] at h
      | false =>
        simp [ContextRecorder.on_context_updateE, hg, hs, hw] at h
        obtain ⟨h1, h2⟩ := h
        subst h1
        subst h2
        refine ⟨?_, ?_⟩
        · simp [readFile_writeFile_self, hs]
        · intro hq
          exact readFile_writeFile_ne _ _ hq

/-- C8 witness: pushing the textual snapshot "hello" through the
cache-write path on an empty store, then reading it back. -/
theorem c8_cache_round_trip_witness :
    ContextRecorder.on_context_updateE {} [] (.pstr "hello") {} =
        .ok ({}, [(".cache/inframe", "hello")]) ∧
    (readFile [(".cache/inframe", "hello")] ({} : RecorderState).cache_file =
        serializeContext (.pstr "hello") ∧
      ("other" ≠ ({} : RecorderState).cache_file →
        readFile [(".cache/inframe", "hello")] "other" = readFile [] "other")) :=
  ⟨rfl, c8_cache_round_trip {} {} [] [(".cache/inframe", "hello")]
    (.pstr "hello") {} "other" rfl⟩

/-! Claim C9 — exit status of the standalone recorder CLI. -/

/-- C9 (counterexample to the claim as stated): when `start` fails (the
video stream does not start), `main_async` prints a message and returns
normally — the process exits with code 0, not a non-zero code. -/
theorem c9_cli_exit_zero_on_start_failure :
    local_context_recorder_main "r"
        { videoStartOk := false, pipelineStartRaises := false,
          integratorStartRaises := false } {} =
      { exitCode := 0, started := false } := by
  decide

/-- C9 (amended): the CLI process exits with status code 0 on normal
completion AND equally when starting the recording fails — the
start-failure path only prints `"Failed to start recording."` and
returns, which is exit code 0. -/
theorem c9_cli_always_exits_zero (id : String) (sb : StartBehavior)
    (tb : StopBehavior) :
    (local_context_recorder_main id sb tb).exitCode = 0 := by
  unfold local_context_recorder_main
  cases hr2 : (ContextRecorder.start (ContextRecorder.add_recorder {} id) id sb).2 with
  | false => simp [hr2]
  | true =>
    have hkeys := start_keys (ContextRecorder.add_recorder {} id) id sb
    have hmem : id ∈ (ContextRecorder.start (ContextRecorder.add_recorder {} id)
        id sb).1.recorders.map Prod.fst := by
      rw [hkeys]
      simp [ContextRecorder.add_recorder]
    have hsome := lookupRec_isSome_of_mem_keys hmem
    obtain ⟨c, hc⟩ := Option.isSome_iff_exists.mp hsome
    rcases hs : ContextRecorder.stop
        (ContextRecorder.start (ContextRecorder.add_recorder {} id) id sb).1 id tb
      with e | s
    · exact absurd hs (stop_ne_error hc tb e)
    · simp [hr2, hs]

/-! Claim C10 — a failed `stop` leaves the session observably active. -/


/-- C10: when a sub-stage stop raises during `stop` of an active session
(the pipeline stop, or the video stop after a successful pipeline stop),
the exception is caught and `stop` returns normally, but the session's
active flag stays true and both the active count and the global recording
flag are unchanged. -/
theorem c10_failed_stop_keeps_session_active (st : RecorderState) (id : String)
    (b : StopBehavior) (c : RecorderConfig)
    (hc : lookupRec st.recorders id = some c) (ha : c.is_recording = true)
    (hfail : b.pipelineStopRaises = true ∨
      (b.pipelineStopRaises = false ∧ b.videoStopRaises = true)) :
    ∃ st', ContextRecorder.stop st id b = .ok st' ∧
      (∃ c', lookupRec st'.recorders id = some c' ∧ c'.is_recording = true) ∧
      st'.active_recorders = st.active_recorders ∧
      st'.is_recording = st.is_recording := by
  obtain ⟨cir, cv, cp⟩ := c
  simp only at ha
  subst ha
  rcases hfail with hbp | ⟨hbp, hbv⟩
  · exact ⟨st, by simp [ContextRecorder.stop, hc, hbp],
      ⟨_, hc, rfl⟩, rfl, rfl⟩
  · have h1 := lookupRec_updateRec_self
      (c := { is_recording := true,
              stages := { videoStarted := cv, pipelineStarted := false } }) hc
    refine ⟨{ st with
        recorders := updateRec st.recorders id
          { is_recording := true,
            stages := { videoStarted := cv, pipelineStarted := false } } },
      by simp [ContextRecorder.stop, hc, hbp, hbv],
      ⟨_, h1, rfl⟩, rfl, rfl⟩

/-- C10 witness: a pipeline-stop failure on the concrete active session
"a". -/
theorem c10_failed_stop_keeps_session_active_witness :
    lookupRec c10WitnessState.recorders "a" =
        some { is_recording := true,
               stages := { videoStarted := true, pipelineStarted := true } } ∧
    ({ is_recording := true,
       stages := { videoStarted := true,
                   pipelineStarted := true } } : RecorderConfig).is_recording = true ∧
    (({ pipelineStopRaises := true,
        videoStopRaises := false } : StopBehavior).pipelineStopRaises = true ∨
      (({ pipelineStopRaises := true,
          videoStopRaises := false } : StopBehavior).pipelineStopRaises = false ∧
        ({ pipelineStopRaises := true,
           videoStopRaises := false } : StopBehavior).videoStopRaises = true)) ∧
    (∃ st', ContextRecorder.stop c10WitnessState "a"
          { pipelineStopRaises := true, videoStopRaises := false } = .ok st' ∧
        (∃ c', lookupRec st'.recorders "a" = some c' ∧ c'.is_recording = true) ∧
        st'.active_recorders = c10WitnessState.active_recorders ∧
        st'.is_recording = c10WitnessState.is_recording) :=
  ⟨by decide, rfl, Or.inl rfl,
    c10_failed_stop_keeps_session_active c10WitnessState "a"
      { pipelineStopRaises := true, videoStopRaises := false }
      { is_recording := true,
        stages := { videoStarted := true, pipelineStarted := true } }
      (by decide) rfl (Or.inl rfl)⟩

end Inframe
